import Mathlib

/-!
Shallow embedding of the star-factory stellar-evolution engine:
`src/engine/starEngine.ts` (initial-state calculator),
`src/engine/starEvolutionEngine.ts` (timeline builder) and
`src/engine/starEvolutionCurves.ts` (curve interpolator).
JavaScript numbers are modelled as real numbers; `Math.pow` is `Real.rpow`
(all bases reached by the code are positive), `Math.log10 = Real.logb 10`,
`Math.min/Math.max` are `min`/`max`.
-/

noncomputable section

namespace StarFactory

/-- Clamp a value into `[lo, hi]`, as in the source:
`clamp(x, min, max) = Math.min(Math.max(x, min), max)`. -/
def clamp (x lo hi : ℝ) : ℝ := min (max x lo) hi

/-- Model of `Math.log10`. -/
def log10 (x : ℝ) : ℝ := Real.logb 10 x

/-- Model of `lerp(a, b, t) = a + (b - a) * t` from starEvolutionCurves.ts. -/
def lerp (a b t : ℝ) : ℝ := a + (b - a) * t

-- ---------- data model (starEngine.ts) ----------

/-- The `StarParams` input record. -/
structure StarParams where
  mass : ℝ
  metallicity : ℝ
  cnoFraction : ℝ

/-- The `InitialStarState` output record of `computeInitialStar`. -/
structure InitialStarState where
  X : ℝ
  Y : ℝ
  Z : ℝ
  Z_cno : ℝ
  Z_other : ℝ
  L_ms : ℝ
  R_ms : ℝ
  T_eff : ℝ
  logL : ℝ
  logT : ℝ

-- ---------- computeInitialStar (starEngine.ts), locals as named defs ----------

/-- Local `M = clamp(mass, 0.1, 50)` of `computeInitialStar`. -/
def clampedMass (p : StarParams) : ℝ := clamp p.mass 0.1 50

/-- Local `Z = clamp(metallicity, 0.0, 0.04)` of `computeInitialStar`. -/
def clampedZ (p : StarParams) : ℝ := clamp p.metallicity 0.0 0.04

/-- Local `fCNO = clamp(cnoFraction, 0, 1)` of `computeInitialStar`. -/
def clampedFCNO (p : StarParams) : ℝ := clamp p.cnoFraction 0 1

/-- Local `Y`: helium enrichment `clamp(0.248 + 1.7 * Z, 0.22, 0.40)`. -/
def heliumY (p : StarParams) : ℝ := clamp (0.248 + 1.7 * clampedZ p) 0.22 0.40

/-- Local `X = max(0, 1 - Y - Z)`. -/
def hydrogenX (p : StarParams) : ℝ := max 0 (1 - heliumY p - clampedZ p)

/-- Local `L_ms_base`: three-segment power law in mass. -/
def L_ms_base (p : StarParams) : ℝ :=
  if clampedMass p < 0.5 then clampedMass p ^ (2.3 : ℝ)
  else if clampedMass p < 2 then clampedMass p ^ (4.0 : ℝ)
  else clampedMass p ^ (3.5 : ℝ)

/-- Local `R_ms = M ^ 0.8`. -/
def R_msVal (p : StarParams) : ℝ := clampedMass p ^ (0.8 : ℝ)

/-- Local `Z_rel = Z_sun > 0 ? clamp(Z / Z_sun, 0.1, 3.0) : 1.0` with `Z_sun = 0.02`. -/
def Z_relInit (p : StarParams) : ℝ :=
  if (0.02 : ℝ) > 0 then clamp (clampedZ p / 0.02) 0.1 3.0 else 1.0

/-- Local `L_ms = L_ms_base * L_Z_factor` before the CNO branch
(`L_Z_factor = Z_rel ^ (-0.25)`). -/
def L_beforeCNO (p : StarParams) : ℝ := L_ms_base p * Z_relInit p ^ (-0.25 : ℝ)

/-- Local `T_base = T_sun * (L_ms / (R_ms * R_ms)) ^ 0.25`, `T_sun = 5772`. -/
def T_baseVal (p : StarParams) : ℝ :=
  5772 * (L_beforeCNO p / (R_msVal p * R_msVal p)) ^ (0.25 : ℝ)

/-- Local `T_eff = T_base * Z_rel ^ (-0.10)` before the CNO branch. -/
def T_beforeCNO (p : StarParams) : ℝ := T_baseVal p * Z_relInit p ^ (-0.10 : ℝ)

/-- Local `massWeight = clamp((M - 1.3) / (5.0 - 1.3), 0, 1)` of the CNO branch. -/
def cnoMassWeight (p : StarParams) : ℝ := clamp ((clampedMass p - 1.3) / (5.0 - 1.3)) 0 1

/-- Local `deltaCNO = fCNO - fCNO_ref`, `fCNO_ref = 0.3`. -/
def deltaCNO (p : StarParams) : ℝ := clampedFCNO p - 0.3

/-- Final `L_ms` after the conditional CNO boost `L_ms *= 1 + 0.4 * deltaCNO * massWeight`
applied only when `M > 1.3`. -/
def L_msFinal (p : StarParams) : ℝ :=
  if 1.3 < clampedMass p then L_beforeCNO p * (1 + 0.4 * deltaCNO p * cnoMassWeight p)
  else L_beforeCNO p

/-- Final `T_eff` after the conditional CNO boost `T_eff *= 1 + 0.15 * deltaCNO * massWeight`
applied only when `M > 1.3`. -/
def T_effFinal (p : StarParams) : ℝ :=
  if 1.3 < clampedMass p then T_beforeCNO p * (1 + 0.15 * deltaCNO p * cnoMassWeight p)
  else T_beforeCNO p

/-- Model of `computeInitialStar` from starEngine.ts. -/
def computeInitialStar (p : StarParams) : InitialStarState :=
  { X := hydrogenX p
    Y := heliumY p
    Z := clampedZ p
    Z_cno := clampedZ p * clampedFCNO p
    Z_other := clampedZ p * (1 - clampedFCNO p)
    L_ms := L_msFinal p
    R_ms := R_msVal p
    T_eff := T_effFinal p
    logL := log10 (L_msFinal p)
    logT := log10 (T_effFinal p) }

-- ---------- clamp helper lemmas ----------

theorem clamp_eq_self {x lo hi : ℝ} (h1 : lo ≤ x) (h2 : x ≤ hi) : clamp x lo hi = x := by
  rw [clamp, max_eq_left h1, min_eq_left h2]

theorem clamp_eq_lo {x lo hi : ℝ} (hx : x ≤ lo) (h : lo ≤ hi) : clamp x lo hi = lo := by
  rw [clamp, max_eq_right hx, min_eq_left h]

theorem clamp_eq_hi {x lo hi : ℝ} (hx : hi ≤ x) : clamp x lo hi = hi := by
  rw [clamp, min_eq_right (le_trans hx (le_max_left _ _))]

theorem clamp_le_hi {x lo hi : ℝ} : clamp x lo hi ≤ hi := min_le_right _ _

theorem lo_le_clamp {x lo hi : ℝ} (h : lo ≤ hi) : lo ≤ clamp x lo hi :=
  le_min (le_max_right _ _) h

theorem clamp_le_of_le {x lo hi b : ℝ} (hx : x ≤ b) (hlo : lo ≤ b) : clamp x lo hi ≤ b :=
  le_trans (min_le_left _ _) (max_le hx hlo)

theorem le_clamp_of_le {x lo hi b : ℝ} (hx : b ≤ x) (hhi : b ≤ hi) : b ≤ clamp x lo hi :=
  le_min (le_trans hx (le_max_left _ _)) hhi

-- ---------- timeline data model (starEvolutionEngine.ts) ----------

/-- The remnant kinds `"wd" | "ns" | "bh"`. -/
inductive RemnantKind where
  | wd
  | ns
  | bh
  deriving DecidableEq, Inhabited

/-- The `EvolutionPhaseId` union: the base phase ids plus the three remnant-specific finals.
(The `"wd"` base id in the `BasePhaseId` of the source is only a duration key there;
the phase list never carries it, so it is not a constructor here.) -/
inductive EvolutionPhaseId where
  | ms
  | subgiant
  | rgb
  | hb
  | agb
  | wdFinal
  | nsFinal
  | bhFinal
  deriving DecidableEq, Inhabited

/-- The `EvolutionPhase` record. -/
structure EvolutionPhase where
  id : EvolutionPhaseId
  label : String
  tStartMyr : ℝ
  tEndMyr : ℝ
  durationMyr : ℝ
  fracStart : ℝ
  fracEnd : ℝ
  deriving Inhabited

/-- The `EvolutionTimeline` record. -/
structure EvolutionTimeline where
  totalLifetimeMyr : ℝ
  phases : List EvolutionPhase
  initial : InitialStarState
  remnant : RemnantKind

-- ---------- computeEvolutionTimeline (starEvolutionEngine.ts) ----------

/-- Model of `clampMass(M) = Math.min(Math.max(M, 0.1), 50)`. -/
def clampMass (M : ℝ) : ℝ := clamp M 0.1 50

/-- Model of `mainSequenceLifetimeGyrFromInitial(initial, params)`: fuel / burn-rate lifetime
in Gyr, metallicity-tweaked, clamped to `[0.003, 200]` Gyr. -/
def mainSequenceLifetimeGyrFromInitial (initial : InitialStarState) (p : StarParams) : ℝ :=
  let M := clampMass p.mass
  let Z := min (max p.metallicity 0.0001) 0.04
  let X := initial.X
  let L_ms := max initial.L_ms 1e-4
  let tGyr := 10 * (X / 0.70) * (M / (L_ms / 1.0))
  let Zrel := if (0.02 : ℝ) > 0 then Z / 0.02 else 1
  let tGyr2 := tGyr * Zrel ^ (0.2 : ℝ)
  min (max tGyr2 0.003) 200

/-- The remnant classification of `computeEvolutionTimeline`:
`M < 8 → wd`, `M < 25 → ns`, otherwise `bh`, on the clamped mass. -/
def remnantOf (p : StarParams) : RemnantKind :=
  if clampMass p.mass < 8 then .wd else if clampMass p.mass < 25 then .ns else .bh

/-- Local `tMsMyr = tMsGyr * 1_000`. -/
def tMsMyr (p : StarParams) : ℝ :=
  mainSequenceLifetimeGyrFromInitial (computeInitialStar p) p * 1000

/-- Local `Mstruct = Math.min(Math.max(M, 0.5), 50)`: structural mass for the
post-main-sequence shape fractions only. -/
def Mstruct (p : StarParams) : ℝ := clamp (clampMass p.mass) 0.5 50

/-- Local `uStruct`: normalized log-mass position between 0.5 and 50 solar masses,
clamped into `[0, 1]`. -/
def uStruct (p : StarParams) : ℝ :=
  clamp ((log10 (Mstruct p) - log10 0.5) / (log10 50 - log10 0.5)) 0 1

/-- Local helper `lerp(low, high) = low + (high - low) * uStruct`. -/
def lerpStruct (p : StarParams) (low high : ℝ) : ℝ := low + (high - low) * uStruct p

/-- Local `fSub = lerp(0.05, 0.01)`. -/
def fSub (p : StarParams) : ℝ := lerpStruct p 0.05 0.01

/-- Local `fRGB = lerp(0.10, 0.015)`. -/
def fRGB (p : StarParams) : ℝ := lerpStruct p 0.10 0.015

/-- Local `fHB = lerp(0.10, 0.02)`. -/
def fHB (p : StarParams) : ℝ := lerpStruct p 0.10 0.02

/-- Local `fAGB = lerp(0.02, 0.005)`. -/
def fAGB (p : StarParams) : ℝ := lerpStruct p 0.02 0.005

/-- Local `rawPostSum = fSub + fRGB + fHB + fAGB`. -/
def rawPostSum (p : StarParams) : ℝ := fSub p + fRGB p + fHB p + fAGB p

/-- Local `targetPostFrac = lerp(0.27, 0.15)`. -/
def targetPostFrac (p : StarParams) : ℝ := lerpStruct p 0.27 0.15

/-- Local `scale = targetPostFrac / rawPostSum`. -/
def postScale (p : StarParams) : ℝ := targetPostFrac p / rawPostSum p

/-- Local `tSub = fSub * scale * tMsMyr`. -/
def tSub (p : StarParams) : ℝ := fSub p * postScale p * tMsMyr p

/-- Local `tRGB = fRGB * scale * tMsMyr`. -/
def tRGB (p : StarParams) : ℝ := fRGB p * postScale p * tMsMyr p

/-- Local `tHB = fHB * scale * tMsMyr`. -/
def tHB (p : StarParams) : ℝ := fHB p * postScale p * tMsMyr p

/-- Local `tAGB = fAGB * scale * tMsMyr`. -/
def tAGB (p : StarParams) : ℝ := fAGB p * postScale p * tMsMyr p

/-- Local `tWD = Math.min(10 * tMsMyr * M ^ (-0.7), 5 * tMsMyr)`. -/
def tWD (p : StarParams) : ℝ :=
  min (10 * tMsMyr p * clampMass p.mass ^ (-0.7 : ℝ)) (5 * tMsMyr p)

/-- The `totalLifetimeMyr` value: the `reduce((sum, t) => sum + t, 0)` over the six durations
in insertion order `ms, subgiant, rgb, hb, agb, wd`. -/
def totalLifetimeMyrOf (p : StarParams) : ℝ :=
  0 + tMsMyr p + tSub p + tRGB p + tHB p + tAGB p + tWD p

/-- The remnant-dependent final phase id. -/
def finalPhaseIdOf (p : StarParams) : EvolutionPhaseId :=
  match remnantOf p with
  | .wd => .wdFinal
  | .ns => .nsFinal
  | .bh => .bhFinal

/-- The remnant-dependent final phase label. -/
def finalLabelOf (p : StarParams) : String :=
  match remnantOf p with
  | .wd => "White dwarf cooling"
  | .ns => "Neutron star cooling"
  | .bh => "Black hole remnant"

/-- The push loop of `computeEvolutionTimeline`: lay the given `(id, label, duration)`
triples out contiguously from the given cursor, deriving `fracStart`/`fracEnd`
by dividing the boundary times by `total`. -/
def layoutPhases (total : ℝ) : ℝ → List (EvolutionPhaseId × String × ℝ) → List EvolutionPhase
  | _, [] => []
  | cursor, (pid, lab, dt) :: rest =>
      { id := pid, label := lab, tStartMyr := cursor, tEndMyr := cursor + dt,
        durationMyr := dt, fracStart := cursor / total, fracEnd := (cursor + dt) / total }
        :: layoutPhases total (cursor + dt) rest

/-- The ordered base sequence plus the remnant-specific final phase, with the
durations computed by `computeEvolutionTimeline`. -/
def phaseSpecs (p : StarParams) : List (EvolutionPhaseId × String × ℝ) :=
  [(.ms, "Main sequence", tMsMyr p),
   (.subgiant, "Subgiant", tSub p),
   (.rgb, "Red giant branch", tRGB p),
   (.hb, "Helium burning", tHB p),
   (.agb, "Asymptotic giant branch", tAGB p),
   (finalPhaseIdOf p, finalLabelOf p, tWD p)]

/-- Model of `computeEvolutionTimeline` from starEvolutionEngine.ts. -/
def computeEvolutionTimeline (p : StarParams) : EvolutionTimeline :=
  { totalLifetimeMyr := totalLifetimeMyrOf p
    phases := layoutPhases (totalLifetimeMyrOf p) 0 (phaseSpecs p)
    initial := computeInitialStar p
    remnant := remnantOf p }

-- ---------- curve interpolator (starEvolutionCurves.ts) ----------

/-- The `StarEvolutionState` record returned by `getStarStateAtTime`. -/
structure StarEvolutionState where
  tMyr : ℝ
  fracTotal : ℝ
  phaseId : EvolutionPhaseId
  phaseLabel : String
  phaseFrac : ℝ
  remnant : RemnantKind
  L : ℝ
  R : ℝ
  T_eff : ℝ
  logL : ℝ
  logT : ℝ

/-- Internal shape keys `ShapePhaseId`; the three finals all collapse onto `wd`. -/
inductive ShapePhaseId where
  | ms
  | subgiant
  | rgb
  | hb
  | agb
  | wd
  deriving DecidableEq, Inhabited

/-- The `StatePoint { L, R, T_eff }` record. -/
structure StatePoint where
  L : ℝ
  R : ℝ
  T_eff : ℝ

/-- The `PhaseShape { start, end }` record; the source field `end` is a reserved word in Lean,
so it is called `stop` here. -/
structure PhaseShape where
  start : StatePoint
  stop : StatePoint

/-- Model of `safePhaseFraction(phase, tMyr)`: 0 for a non-positive duration, else the
clamped progress fraction. -/
def safePhaseFraction (phase : EvolutionPhase) (tMyr : ℝ) : ℝ :=
  if phase.tEndMyr - phase.tStartMyr ≤ 0 then 0
  else clamp ((tMyr - phase.tStartMyr) / (phase.tEndMyr - phase.tStartMyr)) 0 1

/-- Model of `T_from_LR(L, R) = T_sun * (L / R²) ^ 0.25`, `T_sun = 5772`. -/
def T_from_LR (L R : ℝ) : ℝ := 5772 * (L / (R * R)) ^ (0.25 : ℝ)

/-- Model of `R_from_LT(L, T) = sqrt(L) / (T / T_sun)²`, `T_sun = 5772`. -/
def R_from_LT (L T : ℝ) : ℝ := Real.sqrt L / ((T / 5772) * (T / 5772))

-- locals of `buildPhaseShapes(params, initial, remnant)` as named defs
-- (`M`, `Z`, `Zrel` recompute the same clamps as the initial-state calculator;
-- the local `fCNO` of the source is never used afterwards and is omitted)

/-- Local `Zrel` of `buildPhaseShapes`. -/
def bpZrel (p : StarParams) : ℝ :=
  if (0.02 : ℝ) > 0 then clamp (clamp p.metallicity 0.0 0.04 / 0.02) 0.1 3.0 else 1.0

/-- Local `msBrightening = clamp(0.3 * (1/M) ^ 0.3, 0.05, 0.4)`. -/
def msBrightening (p : StarParams) : ℝ :=
  clamp (0.3 * (1 / clampedMass p) ^ (0.3 : ℝ)) 0.05 0.4

/-- Local `msRadiusGrowth = clamp(0.15 * (1/M) ^ 0.2, 0.03, 0.2)`. -/
def msRadiusGrowth (p : StarParams) : ℝ :=
  clamp (0.15 * (1 / clampedMass p) ^ (0.2 : ℝ)) 0.03 0.2

/-- Local `msStart = { L0, R0, T0 }`. -/
def msStartPt (i : InitialStarState) : StatePoint := ⟨i.L_ms, i.R_ms, i.T_eff⟩

/-- Local `L_msEnd = L0 * (1 + msBrightening)`. -/
def L_msEnd (p : StarParams) (i : InitialStarState) : ℝ := i.L_ms * (1 + msBrightening p)

/-- Local `R_msEnd = R0 * (1 + msRadiusGrowth)`. -/
def R_msEnd (p : StarParams) (i : InitialStarState) : ℝ := i.R_ms * (1 + msRadiusGrowth p)

/-- Local `T_msEnd = T_from_LR(L_msEnd, R_msEnd) * Zrel ^ (-0.03)`. -/
def T_msEnd (p : StarParams) (i : InitialStarState) : ℝ :=
  T_from_LR (L_msEnd p i) (R_msEnd p i) * bpZrel p ^ (-0.03 : ℝ)

/-- Local `msEnd` keypoint. -/
def msEndPt (p : StarParams) (i : InitialStarState) : StatePoint :=
  ⟨L_msEnd p i, R_msEnd p i, T_msEnd p i⟩

/-- Local `sgLFactor = 1.5 + 1.0 * M ^ 0.3`. -/
def sgLFactor (p : StarParams) : ℝ := 1.5 + 1.0 * clampedMass p ^ (0.3 : ℝ)

/-- Local `sgRFactor = 3.0 + 2.0 * M ^ 0.2`. -/
def sgRFactor (p : StarParams) : ℝ := 3.0 + 2.0 * clampedMass p ^ (0.2 : ℝ)

/-- Local `L_sgEnd = L_msEnd * sgLFactor`. -/
def L_sgEnd (p : StarParams) (i : InitialStarState) : ℝ := L_msEnd p i * sgLFactor p

/-- Local `R_sgEnd = R_msEnd * sgRFactor`. -/
def R_sgEnd (p : StarParams) (i : InitialStarState) : ℝ := R_msEnd p i * sgRFactor p

/-- Local `T_sgEnd = T_from_LR(L_sgEnd, R_sgEnd) * Zrel ^ (-0.05)`. -/
def T_sgEnd (p : StarParams) (i : InitialStarState) : ℝ :=
  T_from_LR (L_sgEnd p i) (R_sgEnd p i) * bpZrel p ^ (-0.05 : ℝ)

/-- Local `sgEnd` keypoint. -/
def sgEndPt (p : StarParams) (i : InitialStarState) : StatePoint :=
  ⟨L_sgEnd p i, R_sgEnd p i, T_sgEnd p i⟩

/-- Local `rgbRFactor = 50 * M ^ 0.6`. -/
def rgbRFactor (p : StarParams) : ℝ := 50 * clampedMass p ^ (0.6 : ℝ)

/-- Local `logL_rgbTip = clamp(4 + 1.3 * log10(M), logL_ms + 0.8, 5.8)`. -/
def logL_rgbTip (p : StarParams) (i : InitialStarState) : ℝ :=
  clamp (4 + 1.3 * log10 (clampedMass p)) (i.logL + 0.8) 5.8

/-- Local `L_rgbTip = 10 ^ logL_rgbTip`. -/
def L_rgbTip (p : StarParams) (i : InitialStarState) : ℝ := (10 : ℝ) ^ logL_rgbTip p i

/-- Local `R_rgbTip = R0 * rgbRFactor`. -/
def R_rgbTip (p : StarParams) (i : InitialStarState) : ℝ := i.R_ms * rgbRFactor p

/-- Local `T_rgbNominal = clamp(4100 - 400 * log10(M), 3400, 4600)`. -/
def T_rgbNominal (p : StarParams) : ℝ :=
  clamp (4100 - 400 * log10 (clampedMass p)) 3400 4600

/-- Local `T_rgbTip = T_rgbNominal * Zrel ^ (-0.05)`. -/
def T_rgbTip (p : StarParams) : ℝ := T_rgbNominal p * bpZrel p ^ (-0.05 : ℝ)

/-- Local `rgbEnd` keypoint. -/
def rgbEndPt (p : StarParams) (i : InitialStarState) : StatePoint :=
  ⟨L_rgbTip p i, R_rgbTip p i, T_rgbTip p⟩

/-- Local `L_hb = L_rgbTip * clamp(0.25 + 0.15 * M ^ (-0.3), 0.2, 0.5)`. -/
def L_hb (p : StarParams) (i : InitialStarState) : ℝ :=
  L_rgbTip p i * clamp (0.25 + 0.15 * clampedMass p ^ (-0.3 : ℝ)) 0.2 0.5

/-- Local `R_hb = R_rgbTip * clamp(0.15 + 0.1 * M ^ (-0.2), 0.08, 0.25)`. -/
def R_hb (p : StarParams) (i : InitialStarState) : ℝ :=
  R_rgbTip p i * clamp (0.15 + 0.1 * clampedMass p ^ (-0.2 : ℝ)) 0.08 0.25

/-- Local `T_hb = T_from_LR(L_hb, R_hb) * Zrel ^ (-0.04)`. -/
def T_hb (p : StarParams) (i : InitialStarState) : ℝ :=
  T_from_LR (L_hb p i) (R_hb p i) * bpZrel p ^ (-0.04 : ℝ)

/-- Local `hbEnd` keypoint. -/
def hbEndPt (p : StarParams) (i : InitialStarState) : StatePoint :=
  ⟨L_hb p i, R_hb p i, T_hb p i⟩

/-- Local `logL_agb = clamp(logL_rgbTip + clamp(0.15 + 0.25 * log10(M), 0.1, 0.5),
logL_rgbTip + 0.05, 6.2)`. -/
def logL_agbVal (p : StarParams) (i : InitialStarState) : ℝ :=
  clamp (logL_rgbTip p i + clamp (0.15 + 0.25 * log10 (clampedMass p)) 0.1 0.5)
    (logL_rgbTip p i + 0.05) 6.2

/-- Local `L_agb = 10 ^ logL_agb`. -/
def L_agb (p : StarParams) (i : InitialStarState) : ℝ := (10 : ℝ) ^ logL_agbVal p i

/-- Local `R_agb = R_rgbTip * clamp(1.3 + 0.4 * M ^ 0.2, 1.2, 2.2)`. -/
def R_agb (p : StarParams) (i : InitialStarState) : ℝ :=
  R_rgbTip p i * clamp (1.3 + 0.4 * clampedMass p ^ (0.2 : ℝ)) 1.2 2.2

/-- Local `T_agb = (T_rgbNominal * 0.9) * Zrel ^ (-0.05)`. -/
def T_agbVal (p : StarParams) : ℝ := T_rgbNominal p * 0.9 * bpZrel p ^ (-0.05 : ℝ)

/-- Local `agbEnd` keypoint. -/
def agbEndPt (p : StarParams) (i : InitialStarState) : StatePoint :=
  ⟨L_agb p i, R_agb p i, T_agbVal p⟩

/-- Local `logL_core = max(log10(L_agb), 4.5)` of the core-collapse branch. -/
def logL_core (p : StarParams) (i : InitialStarState) : ℝ := max (log10 (L_agb p i)) 4.5

/-- Local `L_core = 10 ^ logL_core`. -/
def L_core (p : StarParams) (i : InitialStarState) : ℝ := (10 : ℝ) ^ logL_core p i

/-- Local `T_rsg = clamp(3600 + 200 * log10(M), 3400, 4300)` of the `ns` branch. -/
def T_rsg (p : StarParams) : ℝ := clamp (3600 + 200 * log10 (clampedMass p)) 3400 4300

/-- Local `R_rsg = R_from_LT(L_core, T_rsg)`. -/
def R_rsg (p : StarParams) (i : InitialStarState) : ℝ := R_from_LT (L_core p i) (T_rsg p)

/-- Local `rsgEnd` keypoint of the `ns` branch. -/
def rsgEndPt (p : StarParams) (i : InitialStarState) : StatePoint :=
  ⟨L_core p i, R_rsg p i, T_rsg p⟩

/-- Local `logL_wr = clamp(logL_core + 0.3, 5.2, 6.2)` of the `bh` branch. -/
def logL_wr (p : StarParams) (i : InitialStarState) : ℝ := clamp (logL_core p i + 0.3) 5.2 6.2

/-- Local `L_wr = 10 ^ logL_wr`. -/
def L_wr (p : StarParams) (i : InitialStarState) : ℝ := (10 : ℝ) ^ logL_wr p i

/-- Local `T_wr = clamp(50000 * (M / 25) ^ 0.15, 40000, 90000)`. -/
def T_wr (p : StarParams) : ℝ :=
  clamp (50000 * (clampedMass p / 25) ^ (0.15 : ℝ)) 40000 90000

/-- Local `R_wr = R_from_LT(L_wr, T_wr)`. -/
def R_wr (p : StarParams) (i : InitialStarState) : ℝ := R_from_LT (L_wr p i) (T_wr p)

/-- Local `wrEnd` keypoint of the `bh` branch. -/
def wrEndPt (p : StarParams) (i : InitialStarState) : StatePoint :=
  ⟨L_wr p i, R_wr p i, T_wr p⟩

/-- Local `R_wd = 0.015 * M ^ (-0.2)` of the white-dwarf branch. -/
def R_wdVal (p : StarParams) : ℝ := 0.015 * clampedMass p ^ (-0.2 : ℝ)

/-- Local `L_wdStart = L0 * clamp(0.08 * M ^ 0.7, 0.02, 0.3)`. -/
def L_wdStart (p : StarParams) (i : InitialStarState) : ℝ :=
  i.L_ms * clamp (0.08 * clampedMass p ^ (0.7 : ℝ)) 0.02 0.3

/-- Local `T_wdStart = 25000 * M ^ 0.05`. -/
def T_wdStart (p : StarParams) : ℝ := 25000 * clampedMass p ^ (0.05 : ℝ)

/-- Local `L_wdEnd = L0 * clamp(2e-4 * M ^ 0.3, 5e-5, 5e-4)`. -/
def L_wdEnd (p : StarParams) (i : InitialStarState) : ℝ :=
  i.L_ms * clamp (2e-4 * clampedMass p ^ (0.3 : ℝ)) 5e-5 5e-4

/-- Local `T_wdEnd = 4500 * Zrel ^ (-0.05)`. -/
def T_wdEnd (p : StarParams) : ℝ := 4500 * bpZrel p ^ (-0.05 : ℝ)

/-- Local `wdStart` keypoint of the white-dwarf cooling track. -/
def wdStartPt (p : StarParams) (i : InitialStarState) : StatePoint :=
  ⟨L_wdStart p i, R_wdVal p, T_wdStart p⟩

/-- Local `wdEnd` keypoint of the white-dwarf cooling track. -/
def wdEndPt (p : StarParams) (i : InitialStarState) : StatePoint :=
  ⟨L_wdEnd p i, R_wdVal p, T_wdEnd p⟩

/-- Model of `buildPhaseShapes(params, initial, remnant)`: the per-star keypoint table.
The first five shapes are identical across the three returned records of the
source; the `wd` shape branches on the remnant kind exactly as the conditionals
`isCoreCollapse` and the `ns` test of the source do. -/
def buildPhaseShapes (p : StarParams) (i : InitialStarState) (remnant : RemnantKind) :
    ShapePhaseId → PhaseShape :=
  fun key =>
    match key with
    | .ms => ⟨msStartPt i, msEndPt p i⟩
    | .subgiant => ⟨msEndPt p i, sgEndPt p i⟩
    | .rgb => ⟨sgEndPt p i, rgbEndPt p i⟩
    | .hb => ⟨rgbEndPt p i, hbEndPt p i⟩
    | .agb => ⟨hbEndPt p i, agbEndPt p i⟩
    | .wd =>
      match remnant with
      | .ns => ⟨agbEndPt p i, rsgEndPt p i⟩
      | .bh => ⟨agbEndPt p i, wrEndPt p i⟩
      | .wd => ⟨wdStartPt p i, wdEndPt p i⟩

/-- Model of `shapeKeyForPhase`: the three finals map to `wd`, the rest to themselves. -/
def shapeKeyForPhase (id : EvolutionPhaseId) : ShapePhaseId :=
  match id with
  | .wdFinal => .wd
  | .nsFinal => .wd
  | .bhFinal => .wd
  | .ms => .ms
  | .subgiant => .subgiant
  | .rgb => .rgb
  | .hb => .hb
  | .agb => .agb

/-- The scan condition of `getStarStateAtTime`:
`tMyr >= ph.tStartMyr && tMyr <= ph.tEndMyr`. -/
def phaseContains (tMyr : ℝ) (ph : EvolutionPhase) : Bool :=
  decide (ph.tStartMyr ≤ tMyr ∧ tMyr ≤ ph.tEndMyr)

/-- The linear scan of `getStarStateAtTime`: the first phase whose closed interval
`[tStartMyr, tEndMyr]` contains the time. -/
def findActivePhase (phases : List EvolutionPhase) (tMyr : ℝ) : Option EvolutionPhase :=
  phases.find? (phaseContains tMyr)

/-- The state built by `getStarStateAtTime` from an active phase: interpolate the
shape keypoints of the phase at the safe phase fraction. -/
def interpState (p : StarParams) (timeline : EvolutionTimeline) (tMyr : ℝ)
    (active : EvolutionPhase) : StarEvolutionState :=
  let initial := computeInitialStar p
  let total := timeline.totalLifetimeMyr
  let fracTotal := if total > 0 then tMyr / total else 0
  let phaseFrac := safePhaseFraction active tMyr
  let shapes := buildPhaseShapes p initial timeline.remnant
  let shape := shapes (shapeKeyForPhase active.id)
  let L := lerp shape.start.L shape.stop.L phaseFrac
  let R := lerp shape.start.R shape.stop.R phaseFrac
  let T_eff := lerp shape.start.T_eff shape.stop.T_eff phaseFrac
  { tMyr := tMyr
    fracTotal := fracTotal
    phaseId := active.id
    phaseLabel := active.label
    phaseFrac := phaseFrac
    remnant := timeline.remnant
    L := L
    R := R
    T_eff := T_eff
    logL := log10 (max L 1e-6)
    logT := log10 (max T_eff 10) }

/-- The extremely defensive fallback of `getStarStateAtTime`: the raw initial
main-sequence state with zero progress. -/
def fallbackState (p : StarParams) (timeline : EvolutionTimeline) : StarEvolutionState :=
  let initial := computeInitialStar p
  { tMyr := 0
    fracTotal := 0
    phaseId := .ms
    phaseLabel := "Main sequence"
    phaseFrac := 0
    remnant := timeline.remnant
    L := initial.L_ms
    R := initial.R_ms
    T_eff := initial.T_eff
    logL := initial.logL
    logT := initial.logT }

/-- The body of `getStarStateAtTime` after the time has been clamped: scan for the
active phase, pin to the last phase when the scan fails, and fall back to the raw
initial state when there are no phases at all. -/
def stateAtClampedTime (p : StarParams) (timeline : EvolutionTimeline) (tMyr : ℝ) :
    StarEvolutionState :=
  match findActivePhase timeline.phases tMyr with
  | some active => interpState p timeline tMyr active
  | none =>
    match timeline.phases.getLast? with
    | some last => interpState p timeline tMyr last
    | none => fallbackState p timeline

/-- Model of `getStarStateAtTime(params, timeline, tMyrRaw)` from starEvolutionCurves.ts:
clamp the raw time into `[0, totalLifetimeMyr]` and evaluate the piecewise curve. -/
def getStarStateAtTime (p : StarParams) (timeline : EvolutionTimeline) (tMyrRaw : ℝ) :
    StarEvolutionState :=
  stateAtClampedTime p timeline (clamp tMyrRaw 0 timeline.totalLifetimeMyr)

-- ---------- basic facts about the embedding ----------

theorem timeline_remnant (p : StarParams) :
    (computeEvolutionTimeline p).remnant = remnantOf p := rfl

theorem timeline_total (p : StarParams) :
    (computeEvolutionTimeline p).totalLifetimeMyr = totalLifetimeMyrOf p := rfl

theorem clampMass_lt_of_lt {m b : ℝ} (h : m < b) (hb : 0.1 < b) : clampMass m < b :=
  lt_of_le_of_lt (min_le_left _ _) (max_lt h hb)

theorem le_clampMass_of_le {m b : ℝ} (hb : b ≤ m) (hb50 : b ≤ 50) : b ≤ clampMass m :=
  le_min (le_trans hb (le_max_left _ _)) hb50

theorem clampMass_pos (m : ℝ) : 0 < clampMass m := by
  rw [clampMass, clamp]
  exact lt_of_lt_of_le (by norm_num) (le_min (le_max_right m 0.1) (by norm_num))

-- ---------- C4 ----------

/-- Claim C4: for every `StarParams`, the `InitialStarState` returned by
`computeInitialStar` satisfies `X + Y + Z = 1` within `1e-9` and
`Z_cno + Z_other = Z` within `1e-9`, where `Z` is the clamped metallicity
(both identities are in fact exact over the reals). -/
theorem composition_closure (p : StarParams) :
    |(computeInitialStar p).X + (computeInitialStar p).Y + (computeInitialStar p).Z - 1|
      ≤ 1e-9 ∧
    |(computeInitialStar p).Z_cno + (computeInitialStar p).Z_other - (computeInitialStar p).Z|
      ≤ 1e-9 ∧
    (computeInitialStar p).Z = clampedZ p := by
  have hY : heliumY p ≤ 0.40 := clamp_le_hi
  have hZ : clampedZ p ≤ 0.04 := clamp_le_hi
  have hX : hydrogenX p = 1 - heliumY p - clampedZ p :=
    max_eq_right (by linarith)
  refine ⟨?_, ?_, rfl⟩
  · show |hydrogenX p + heliumY p + clampedZ p - 1| ≤ 1e-9
    rw [hX, show (1 - heliumY p - clampedZ p + heliumY p + clampedZ p - 1 : ℝ) = 0 by ring]
    norm_num
  · show |clampedZ p * clampedFCNO p + clampedZ p * (1 - clampedFCNO p) - clampedZ p| ≤ 1e-9
    have : clampedZ p * clampedFCNO p + clampedZ p * (1 - clampedFCNO p) - clampedZ p = 0 := by
      ring
    rw [this]
    norm_num

-- ---------- C3 ----------

/-- Claim C3: the remnant of `computeEvolutionTimeline` is a function of mass
alone: `mass < 8 → wd`, `8 ≤ mass < 25 → ns`, `25 ≤ mass → bh`; in particular
`7.99 → wd`, `8 → ns`, `24.99 → ns`, `25 → bh`, and changing metallicity or
cnoFraction while holding mass fixed never changes the remnant. -/
theorem remnant_mass_only (m z c z2 c2 : ℝ) :
    ((m < 8 → (computeEvolutionTimeline ⟨m, z, c⟩).remnant = RemnantKind.wd) ∧
     (8 ≤ m → m < 25 → (computeEvolutionTimeline ⟨m, z, c⟩).remnant = RemnantKind.ns) ∧
     (25 ≤ m → (computeEvolutionTimeline ⟨m, z, c⟩).remnant = RemnantKind.bh)) ∧
    (computeEvolutionTimeline ⟨7.99, z, c⟩).remnant = RemnantKind.wd ∧
    (computeEvolutionTimeline ⟨8, z, c⟩).remnant = RemnantKind.ns ∧
    (computeEvolutionTimeline ⟨24.99, z, c⟩).remnant = RemnantKind.ns ∧
    (computeEvolutionTimeline ⟨25, z, c⟩).remnant = RemnantKind.bh ∧
    (computeEvolutionTimeline ⟨m, z, c⟩).remnant =
      (computeEvolutionTimeline ⟨m, z2, c2⟩).remnant := by
  have gen : ∀ m' z' c' : ℝ,
      (m' < 8 → remnantOf ⟨m', z', c'⟩ = RemnantKind.wd) ∧
      (8 ≤ m' → m' < 25 → remnantOf ⟨m', z', c'⟩ = RemnantKind.ns) ∧
      (25 ≤ m' → remnantOf ⟨m', z', c'⟩ = RemnantKind.bh) := by
    intro m' z' c'
    refine ⟨fun h => ?_, fun h8 h25 => ?_, fun h => ?_⟩
    · exact if_pos (clampMass_lt_of_lt h (by norm_num))
    · rw [remnantOf, if_neg (not_lt.mpr (le_clampMass_of_le h8 (by norm_num))),
        if_pos (clampMass_lt_of_lt h25 (by norm_num))]
    · rw [remnantOf,
        if_neg (not_lt.mpr (le_clampMass_of_le (le_trans (by norm_num) h) (by norm_num))),
        if_neg (not_lt.mpr (le_clampMass_of_le h (by norm_num)))]
  refine ⟨gen m z c, ?_, ?_, ?_, ?_, rfl⟩
  · exact (gen 7.99 z c).1 (by norm_num)
  · exact (gen 8 z c).2.1 (by norm_num) (by norm_num)
  · exact (gen 24.99 z c).2.1 (by norm_num) (by norm_num)
  · exact (gen 25 z c).2.2 (by norm_num)

/-- Witness for C3 at a concrete input. -/
theorem remnant_mass_only_witness :
    (1 : ℝ) < 8 ∧ (computeEvolutionTimeline ⟨1, 0.02, 0.3⟩).remnant = RemnantKind.wd :=
  ⟨by norm_num, (remnant_mass_only 1 0.02 0.3 0.04 0.9).1.1 (by norm_num)⟩

-- ---------- positivity of the six phase durations ----------

theorem msLifetime_mem (i : InitialStarState) (p : StarParams) :
    0.003 ≤ mainSequenceLifetimeGyrFromInitial i p ∧
      mainSequenceLifetimeGyrFromInitial i p ≤ 200 := by
  simp only [mainSequenceLifetimeGyrFromInitial]
  exact ⟨le_min (le_max_right _ _) (by norm_num), min_le_right _ _⟩

theorem tMsMyr_ge_three (p : StarParams) : 3 ≤ tMsMyr p := by
  have h := (msLifetime_mem (computeInitialStar p) p).1
  rw [tMsMyr]
  linarith

theorem tMsMyr_pos (p : StarParams) : 0 < tMsMyr p :=
  lt_of_lt_of_le (by norm_num) (tMsMyr_ge_three p)

theorem uStruct_nonneg (p : StarParams) : 0 ≤ uStruct p := lo_le_clamp (by norm_num)

theorem uStruct_le_one (p : StarParams) : uStruct p ≤ 1 := clamp_le_hi

theorem fSub_pos (p : StarParams) : 0 < fSub p := by
  have h := uStruct_le_one p
  rw [fSub, lerpStruct]
  linarith

theorem fRGB_pos (p : StarParams) : 0 < fRGB p := by
  have h := uStruct_le_one p
  rw [fRGB, lerpStruct]
  linarith

theorem fHB_pos (p : StarParams) : 0 < fHB p := by
  have h := uStruct_le_one p
  rw [fHB, lerpStruct]
  linarith

theorem fAGB_pos (p : StarParams) : 0 < fAGB p := by
  have h := uStruct_le_one p
  rw [fAGB, lerpStruct]
  linarith

theorem rawPostSum_pos (p : StarParams) : 0 < rawPostSum p := by
  have := fSub_pos p
  have := fRGB_pos p
  have := fHB_pos p
  have := fAGB_pos p
  rw [rawPostSum]
  linarith

theorem targetPostFrac_pos (p : StarParams) : 0 < targetPostFrac p := by
  have h := uStruct_le_one p
  rw [targetPostFrac, lerpStruct]
  linarith

theorem postScale_pos (p : StarParams) : 0 < postScale p :=
  div_pos (targetPostFrac_pos p) (rawPostSum_pos p)

theorem tSub_pos (p : StarParams) : 0 < tSub p :=
  mul_pos (mul_pos (fSub_pos p) (postScale_pos p)) (tMsMyr_pos p)

theorem tRGB_pos (p : StarParams) : 0 < tRGB p :=
  mul_pos (mul_pos (fRGB_pos p) (postScale_pos p)) (tMsMyr_pos p)

theorem tHB_pos (p : StarParams) : 0 < tHB p :=
  mul_pos (mul_pos (fHB_pos p) (postScale_pos p)) (tMsMyr_pos p)

theorem tAGB_pos (p : StarParams) : 0 < tAGB p :=
  mul_pos (mul_pos (fAGB_pos p) (postScale_pos p)) (tMsMyr_pos p)

theorem tWD_pos (p : StarParams) : 0 < tWD p :=
  lt_min
    (mul_pos (mul_pos (by norm_num) (tMsMyr_pos p))
      (Real.rpow_pos_of_pos (clampMass_pos p.mass) _))
    (mul_pos (by norm_num) (tMsMyr_pos p))

theorem totalLifetime_pos (p : StarParams) : 0 < totalLifetimeMyrOf p := by
  have := tMsMyr_pos p
  have := tSub_pos p
  have := tRGB_pos p
  have := tHB_pos p
  have := tAGB_pos p
  have := tWD_pos p
  rw [totalLifetimeMyrOf]
  linarith

/-- The six phases laid out by `computeEvolutionTimeline`, written out. -/
theorem phases_explicit (p : StarParams) :
    (computeEvolutionTimeline p).phases =
      [⟨.ms, "Main sequence", 0, 0 + tMsMyr p, tMsMyr p,
         0 / totalLifetimeMyrOf p, (0 + tMsMyr p) / totalLifetimeMyrOf p⟩,
       ⟨.subgiant, "Subgiant", 0 + tMsMyr p, 0 + tMsMyr p + tSub p, tSub p,
         (0 + tMsMyr p) / totalLifetimeMyrOf p,
         (0 + tMsMyr p + tSub p) / totalLifetimeMyrOf p⟩,
       ⟨.rgb, "Red giant branch", 0 + tMsMyr p + tSub p,
         0 + tMsMyr p + tSub p + tRGB p, tRGB p,
         (0 + tMsMyr p + tSub p) / totalLifetimeMyrOf p,
         (0 + tMsMyr p + tSub p + tRGB p) / totalLifetimeMyrOf p⟩,
       ⟨.hb, "Helium burning", 0 + tMsMyr p + tSub p + tRGB p,
         0 + tMsMyr p + tSub p + tRGB p + tHB p, tHB p,
         (0 + tMsMyr p + tSub p + tRGB p) / totalLifetimeMyrOf p,
         (0 + tMsMyr p + tSub p + tRGB p + tHB p) / totalLifetimeMyrOf p⟩,
       ⟨.agb, "Asymptotic giant branch", 0 + tMsMyr p + tSub p + tRGB p + tHB p,
         0 + tMsMyr p + tSub p + tRGB p + tHB p + tAGB p, tAGB p,
         (0 + tMsMyr p + tSub p + tRGB p + tHB p) / totalLifetimeMyrOf p,
         (0 + tMsMyr p + tSub p + tRGB p + tHB p + tAGB p) / totalLifetimeMyrOf p⟩,
       ⟨finalPhaseIdOf p, finalLabelOf p, 0 + tMsMyr p + tSub p + tRGB p + tHB p + tAGB p,
         0 + tMsMyr p + tSub p + tRGB p + tHB p + tAGB p + tWD p, tWD p,
         (0 + tMsMyr p + tSub p + tRGB p + tHB p + tAGB p) / totalLifetimeMyrOf p,
         (0 + tMsMyr p + tSub p + tRGB p + tHB p + tAGB p + tWD p) / totalLifetimeMyrOf p⟩] :=
  rfl

-- ---------- C2 ----------

/-- Claim C2: `computeEvolutionTimeline` returns exactly six phases, each with
non-negative `durationMyr` and `tEndMyr = tStartMyr + durationMyr`, contiguous,
first starting at 0, last ending at `totalLifetimeMyr > 0`, with the last
`fracEnd` equal to 1 within `1e-9`. -/
theorem timeline_partition_invariants (p : StarParams) :
    (computeEvolutionTimeline p).phases.length = 6 ∧
    (∀ ph ∈ (computeEvolutionTimeline p).phases,
        0 ≤ ph.durationMyr ∧ ph.tEndMyr = ph.tStartMyr + ph.durationMyr) ∧
    (∀ i : ℕ, i + 1 < 6 →
        ((computeEvolutionTimeline p).phases.getD i default).tEndMyr =
          ((computeEvolutionTimeline p).phases.getD (i + 1) default).tStartMyr) ∧
    ((computeEvolutionTimeline p).phases.getD 0 default).tStartMyr = 0 ∧
    ((computeEvolutionTimeline p).phases.getD 5 default).tEndMyr =
      (computeEvolutionTimeline p).totalLifetimeMyr ∧
    0 < (computeEvolutionTimeline p).totalLifetimeMyr ∧
    |((computeEvolutionTimeline p).phases.getD 5 default).fracEnd - 1| ≤ 1e-9 := by
  have hms := tMsMyr_pos p
  have hsub := tSub_pos p
  have hrgb := tRGB_pos p
  have hhb := tHB_pos p
  have hagb := tAGB_pos p
  have hwd := tWD_pos p
  have htot := totalLifetime_pos p
  rw [phases_explicit, timeline_total]
  refine ⟨rfl, ?_, ?_, rfl, ?_, htot, ?_⟩
  · intro ph hph
    simp only [List.mem_cons, List.not_mem_nil, or_false] at hph
    rcases hph with h | h | h | h | h | h <;> (subst h; exact ⟨by linarith, rfl⟩)
  · intro i hi
    have h4 : i ≤ 4 := by omega
    interval_cases i <;> rfl
  · show 0 + tMsMyr p + tSub p + tRGB p + tHB p + tAGB p + tWD p = totalLifetimeMyrOf p
    rw [totalLifetimeMyrOf]
  · show |(0 + tMsMyr p + tSub p + tRGB p + tHB p + tAGB p + tWD p) / totalLifetimeMyrOf p - 1|
        ≤ 1e-9
    have hsum : 0 + tMsMyr p + tSub p + tRGB p + tHB p + tAGB p + tWD p
        = totalLifetimeMyrOf p := rfl
    rw [hsum, div_self (ne_of_gt htot)]
    norm_num

/-- Witness for C2 at a concrete input. -/
theorem timeline_partition_invariants_witness :
    (0 : ℕ) + 1 < 6 ∧
      ((computeEvolutionTimeline ⟨1, 0.02, 0.3⟩).phases.getD 0 default).tEndMyr =
        ((computeEvolutionTimeline ⟨1, 0.02, 0.3⟩).phases.getD 1 default).tStartMyr :=
  ⟨by norm_num, (timeline_partition_invariants ⟨1, 0.02, 0.3⟩).2.2.1 0 (by norm_num)⟩

-- ---------- C6 ----------

/-- Claim C6: the four post-main-sequence durations sum to exactly
`targetPostFrac * tMsMyr`, where `targetPostFrac` interpolates linearly from
0.27 to 0.15 along the normalized log-mass axis, and masses below 0.5 are
treated as 0.5 for the shape calculation only. -/
theorem postms_total_fraction (p : StarParams) :
    tSub p + tRGB p + tHB p + tAGB p = targetPostFrac p * tMsMyr p ∧
    targetPostFrac p = 0.27 + (0.15 - 0.27) * uStruct p ∧
    (p.mass < 0.5 → Mstruct p = 0.5) := by
  refine ⟨?_, rfl, ?_⟩
  · have hn : rawPostSum p ≠ 0 := ne_of_gt (rawPostSum_pos p)
    rw [tSub, tRGB, tHB, tAGB, postScale]
    field_simp
    rw [rawPostSum]
    ring
  · intro h
    have h1 : clampMass p.mass < 0.5 := clampMass_lt_of_lt h (by norm_num)
    rw [Mstruct]
    exact clamp_eq_lo (le_of_lt h1) (by norm_num)

/-- Witness for C6 at a concrete input. -/
theorem postms_total_fraction_witness :
    ((⟨0.3, 0.02, 0.3⟩ : StarParams)).mass < 0.5 ∧ Mstruct ⟨0.3, 0.02, 0.3⟩ = 0.5 :=
  ⟨by norm_num, (postms_total_fraction ⟨0.3, 0.02, 0.3⟩).2.2 (by norm_num)⟩

-- ---------- C8 ----------

theorem clamp_of_nonpos {t T : ℝ} (h : t ≤ 0) : clamp t 0 T = clamp 0 0 T := by
  rw [clamp, clamp, max_eq_right h, max_self]

theorem clamp_of_total_le {t T : ℝ} (h : T ≤ t) : clamp t 0 T = clamp T 0 T := by
  rw [clamp, clamp]
  rcases le_total 0 T with h0 | h0
  · rw [max_eq_left (le_trans h0 h), max_eq_left h0, min_eq_right h, min_self]
  · rcases le_total t 0 with h1 | h1
    · rw [max_eq_right h1, max_eq_right h0]
    · rw [max_eq_left h1, max_eq_right h0, min_eq_right (le_trans h0 h1),
        min_eq_right h0]

/-- Claim C8: `getStarStateAtTime` at any `t < 0` returns a state identical in
every field to the state at `t = 0`, and at any `t > totalLifetimeMyr` a state
identical to the state at `t = totalLifetimeMyr` (for every timeline value). -/
theorem clamping_idempotence (p : StarParams) (tl : EvolutionTimeline) (t : ℝ) :
    (t < 0 → getStarStateAtTime p tl t = getStarStateAtTime p tl 0) ∧
    (tl.totalLifetimeMyr < t →
      getStarStateAtTime p tl t = getStarStateAtTime p tl tl.totalLifetimeMyr) := by
  constructor
  · intro h
    rw [getStarStateAtTime, getStarStateAtTime, clamp_of_nonpos (le_of_lt h)]
  · intro h
    rw [getStarStateAtTime, getStarStateAtTime, clamp_of_total_le (le_of_lt h)]

/-- Witness for C8 at a concrete input. -/
theorem clamping_idempotence_witness :
    (-1 : ℝ) < 0 ∧
      getStarStateAtTime ⟨1, 0.02, 0.3⟩ (computeEvolutionTimeline ⟨1, 0.02, 0.3⟩) (-1) =
        getStarStateAtTime ⟨1, 0.02, 0.3⟩ (computeEvolutionTimeline ⟨1, 0.02, 0.3⟩) 0 :=
  ⟨by norm_num,
    (clamping_idempotence ⟨1, 0.02, 0.3⟩ (computeEvolutionTimeline ⟨1, 0.02, 0.3⟩) (-1)).1
      (by norm_num)⟩

-- ---------- C9 ----------

theorem preCNO_congr {p q : StarParams} (hm : p.mass = q.mass)
    (hz : p.metallicity = q.metallicity) :
    clampedMass p = clampedMass q ∧ clampedZ p = clampedZ q ∧
      L_beforeCNO p = L_beforeCNO q ∧ T_beforeCNO p = T_beforeCNO q ∧
      R_msVal p = R_msVal q := by
  have h1 : clampedMass p = clampedMass q := by rw [clampedMass, clampedMass, hm]
  have h2 : clampedZ p = clampedZ q := by rw [clampedZ, clampedZ, hz]
  have h3 : Z_relInit p = Z_relInit q := by rw [Z_relInit, Z_relInit, h2]
  have h4 : L_ms_base p = L_ms_base q := by rw [L_ms_base, L_ms_base, h1]
  have h5 : R_msVal p = R_msVal q := by rw [R_msVal, R_msVal, h1]
  have h6 : L_beforeCNO p = L_beforeCNO q := by rw [L_beforeCNO, L_beforeCNO, h3, h4]
  have h7 : T_beforeCNO p = T_beforeCNO q := by
    rw [T_beforeCNO, T_beforeCNO, T_baseVal, T_baseVal, h3, h5, h6]
  exact ⟨h1, h2, h6, h7, h5⟩

/-- Claim C9: for two parameter sets agreeing on mass and metallicity and
differing only in cnoFraction, `computeInitialStar` returns identical
`L_ms, R_ms, T_eff, logL, logT` when the clamped mass is at most 1.3; above
1.3, `L_ms` and `T_eff` are the cno-independent base values scaled by the
multiplicative factors `1 + 0.4*(fCNO - 0.3)*w` and `1 + 0.15*(fCNO - 0.3)*w`,
whose deviations from 1 are bounded by 0.4 and 0.15 respectively. -/
theorem cno_dependence (p q : StarParams) (hm : p.mass = q.mass)
    (hz : p.metallicity = q.metallicity) :
    (clampedMass p ≤ 1.3 →
      (computeInitialStar p).L_ms = (computeInitialStar q).L_ms ∧
      (computeInitialStar p).R_ms = (computeInitialStar q).R_ms ∧
      (computeInitialStar p).T_eff = (computeInitialStar q).T_eff ∧
      (computeInitialStar p).logL = (computeInitialStar q).logL ∧
      (computeInitialStar p).logT = (computeInitialStar q).logT) ∧
    (1.3 < clampedMass p →
      (computeInitialStar p).L_ms =
        L_beforeCNO p * (1 + 0.4 * (clampedFCNO p - 0.3) * cnoMassWeight p) ∧
      (computeInitialStar p).T_eff =
        T_beforeCNO p * (1 + 0.15 * (clampedFCNO p - 0.3) * cnoMassWeight p) ∧
      |0.4 * (clampedFCNO p - 0.3) * cnoMassWeight p| ≤ 0.4 ∧
      |0.15 * (clampedFCNO p - 0.3) * cnoMassWeight p| ≤ 0.15 ∧
      L_beforeCNO p = L_beforeCNO q ∧ T_beforeCNO p = T_beforeCNO q) := by
  obtain ⟨h1, _, hL, hT, hR⟩ := preCNO_congr hm hz
  constructor
  · intro hle
    have hnp : ¬ (1.3 < clampedMass p) := not_lt.mpr hle
    have hnq : ¬ (1.3 < clampedMass q) := h1 ▸ hnp
    have eLp : L_msFinal p = L_beforeCNO p := by rw [L_msFinal, if_neg hnp]
    have eLq : L_msFinal q = L_beforeCNO q := by rw [L_msFinal, if_neg hnq]
    have eTp : T_effFinal p = T_beforeCNO p := by rw [T_effFinal, if_neg hnp]
    have eTq : T_effFinal q = T_beforeCNO q := by rw [T_effFinal, if_neg hnq]
    refine ⟨?_, hR, ?_, ?_, ?_⟩
    · show L_msFinal p = L_msFinal q
      rw [eLp, eLq, hL]
    · show T_effFinal p = T_effFinal q
      rw [eTp, eTq, hT]
    · show log10 (L_msFinal p) = log10 (L_msFinal q)
      rw [eLp, eLq, hL]
    · show log10 (T_effFinal p) = log10 (T_effFinal q)
      rw [eTp, eTq, hT]
  · intro hgt
    have hw0 : 0 ≤ cnoMassWeight p := lo_le_clamp (by norm_num)
    have hw1 : cnoMassWeight p ≤ 1 := clamp_le_hi
    have hc0 : 0 ≤ clampedFCNO p := lo_le_clamp (by norm_num)
    have hc1 : clampedFCNO p ≤ 1 := clamp_le_hi
    refine ⟨?_, ?_, ?_, ?_, hL, hT⟩
    · show L_msFinal p = _
      rw [L_msFinal, if_pos hgt, deltaCNO]
    · show T_effFinal p = _
      rw [T_effFinal, if_pos hgt, deltaCNO]
    · rw [abs_le]
      constructor <;> nlinarith
    · rw [abs_le]
      constructor <;> nlinarith

/-- Witness for C9 at a concrete input: below the 1.3 solar-mass threshold the
cnoFraction has no effect on the luminosity. -/
theorem cno_dependence_witness :
    clampedMass ⟨1, 0.02, 0.1⟩ ≤ 1.3 ∧
      (computeInitialStar ⟨1, 0.02, 0.1⟩).L_ms = (computeInitialStar ⟨1, 0.02, 0.9⟩).L_ms :=
  ⟨by rw [clampedMass, clamp_eq_self (by norm_num) (by norm_num)]; norm_num,
   ((cno_dependence ⟨1, 0.02, 0.1⟩ ⟨1, 0.02, 0.9⟩ rfl rfl).1
      (by rw [clampedMass, clamp_eq_self (by norm_num) (by norm_num)]; norm_num)).1⟩

-- ---------- C1 ----------

/-- Claim C1 (amended): the keypoint table chains start-to-end through
`ms → subgiant → rgb → hb → agb` for every remnant branch, and through the
final shape only for the core-collapse branches (`ns`, `bh`); for the `wd`
remnant the final shape starts at a separate white-dwarf cooling point. -/
theorem keypoint_chaining (p : StarParams) (i : InitialStarState) (r : RemnantKind) :
    (buildPhaseShapes p i r .subgiant).start = (buildPhaseShapes p i r .ms).stop ∧
    (buildPhaseShapes p i r .rgb).start = (buildPhaseShapes p i r .subgiant).stop ∧
    (buildPhaseShapes p i r .hb).start = (buildPhaseShapes p i r .rgb).stop ∧
    (buildPhaseShapes p i r .agb).start = (buildPhaseShapes p i r .hb).stop ∧
    (r ≠ RemnantKind.wd →
      (buildPhaseShapes p i r .wd).start = (buildPhaseShapes p i r .agb).stop) := by
  refine ⟨rfl, rfl, rfl, rfl, ?_⟩
  intro h
  cases r with
  | wd => exact absurd rfl h
  | ns => rfl
  | bh => rfl

/-- Witness for the amended C1 theorem at a concrete input. -/
theorem keypoint_chaining_witness :
    RemnantKind.ns ≠ RemnantKind.wd ∧
      (buildPhaseShapes ⟨10, 0.02, 0.3⟩ (computeInitialStar ⟨10, 0.02, 0.3⟩)
          RemnantKind.ns .wd).start =
        (buildPhaseShapes ⟨10, 0.02, 0.3⟩ (computeInitialStar ⟨10, 0.02, 0.3⟩)
          RemnantKind.ns .agb).stop :=
  ⟨by decide,
   (keypoint_chaining ⟨10, 0.02, 0.3⟩ (computeInitialStar ⟨10, 0.02, 0.3⟩)
      RemnantKind.ns).2.2.2.2 (by decide)⟩

-- evaluation of the engine at the solar calibration point (1, 0.02, 0.3)

/-- The solar calibration parameter set `mass 1, metallicity 0.02, cnoFraction 0.3`. -/
def pSun : StarParams := ⟨1, 0.02, 0.3⟩

theorem clampedMass_pSun : clampedMass pSun = 1 := by
  rw [clampedMass]
  show clamp 1 0.1 50 = 1
  exact clamp_eq_self (by norm_num) (by norm_num)

theorem clampedZ_pSun : clampedZ pSun = 0.02 := by
  rw [clampedZ]
  show clamp 0.02 0.0 0.04 = 0.02
  exact clamp_eq_self (by norm_num) (by norm_num)

theorem Z_relInit_pSun : Z_relInit pSun = 1 := by
  rw [Z_relInit, if_pos (by norm_num : (0.02 : ℝ) > 0), clampedZ_pSun,
    show (0.02 : ℝ) / 0.02 = 1 by norm_num]
  exact clamp_eq_self (by norm_num) (by norm_num)

theorem L_msFinal_pSun : L_msFinal pSun = 1 := by
  have hbase : L_ms_base pSun = 1 := by
    rw [L_ms_base, clampedMass_pSun, if_neg (by norm_num : ¬ (1 : ℝ) < 0.5),
      if_pos (by norm_num : (1 : ℝ) < 2), Real.one_rpow]
  have hpre : L_beforeCNO pSun = 1 := by
    rw [L_beforeCNO, hbase, Z_relInit_pSun, Real.one_rpow, one_mul]
  rw [L_msFinal, clampedMass_pSun, if_neg (by norm_num : ¬ (1.3 : ℝ) < 1), hpre]

theorem initial_pSun_L : (computeInitialStar pSun).L_ms = 1 := L_msFinal_pSun

theorem initial_pSun_logL : (computeInitialStar pSun).logL = 0 := by
  show log10 (L_msFinal pSun) = 0
  rw [L_msFinal_pSun, log10, Real.logb_one]

theorem logL_rgbTip_pSun : logL_rgbTip pSun (computeInitialStar pSun) = 4 := by
  rw [logL_rgbTip, initial_pSun_logL, clampedMass_pSun, log10, Real.logb_one,
    show (4 : ℝ) + 1.3 * 0 = 4 by norm_num, show (0 : ℝ) + 0.8 = 0.8 by norm_num]
  exact clamp_eq_self (by norm_num) (by norm_num)

theorem logL_agbVal_pSun : logL_agbVal pSun (computeInitialStar pSun) = 4.15 := by
  rw [logL_agbVal, logL_rgbTip_pSun, clampedMass_pSun, log10, Real.logb_one,
    show (0.15 : ℝ) + 0.25 * 0 = 0.15 by norm_num,
    clamp_eq_self (by norm_num : (0.1 : ℝ) ≤ 0.15) (by norm_num : (0.15 : ℝ) ≤ 0.5),
    show (4 : ℝ) + 0.15 = 4.15 by norm_num]
  exact clamp_eq_self (by norm_num) (by norm_num)

/-- Counterexample for C1 as stated: at the solar parameters (whose remnant
branch is `wd`) the start luminosity of the final shape (0.08 L☉) differs from
the end luminosity of the agb shape (`10^4.15` L☉) — the table does not chain through
the final shape on the `wd` branch. -/
theorem wd_final_shape_breaks_chaining :
    (computeEvolutionTimeline pSun).remnant = RemnantKind.wd ∧
      (buildPhaseShapes pSun (computeInitialStar pSun) RemnantKind.wd ShapePhaseId.wd).start.L ≠
        (buildPhaseShapes pSun (computeInitialStar pSun) RemnantKind.wd
          ShapePhaseId.agb).stop.L := by
  constructor
  · show remnantOf pSun = RemnantKind.wd
    have h : clampMass pSun.mass < 8 := by
      have : clampMass pSun.mass = 1 := clampedMass_pSun
      rw [this]
      norm_num
    rw [remnantOf, if_pos h]
  · show L_wdStart pSun (computeInitialStar pSun) ≠ L_agb pSun (computeInitialStar pSun)
    have hwd : L_wdStart pSun (computeInitialStar pSun) = 0.08 := by
      rw [L_wdStart, initial_pSun_L, clampedMass_pSun, Real.one_rpow,
        show (0.08 : ℝ) * 1 = 0.08 by norm_num,
        clamp_eq_self (by norm_num : (0.02 : ℝ) ≤ 0.08) (by norm_num : (0.08 : ℝ) ≤ 0.3),
        one_mul]
    have hagb : L_agb pSun (computeInitialStar pSun) = (10 : ℝ) ^ (4.15 : ℝ) := by
      rw [L_agb, logL_agbVal_pSun]
    rw [hwd, hagb]
    have hone : (1 : ℝ) ≤ (10 : ℝ) ^ (4.15 : ℝ) := by
      calc (1 : ℝ) = (10 : ℝ) ^ (0 : ℝ) := (Real.rpow_zero 10).symm
        _ ≤ (10 : ℝ) ^ (4.15 : ℝ) :=
            Real.rpow_le_rpow_of_exponent_le (by norm_num) (by norm_num)
    exact ne_of_lt (lt_of_lt_of_le (by norm_num) hone)

-- ---------- C7 ----------

/-- Claim C7: for every timeline produced by `computeEvolutionTimeline` and every
query time, the linear scan of `getStarStateAtTime` finds a phase whose closed
interval contains the clamped time, so the two defensive fallback branches
(pin-to-last-phase and the empty-phase-list fallback) are never taken. -/
theorem phase_scan_total (p : StarParams) (tRaw : ℝ) :
    ∃ ph, findActivePhase (computeEvolutionTimeline p).phases
        (clamp tRaw 0 (computeEvolutionTimeline p).totalLifetimeMyr) = some ph ∧
      ph.tStartMyr ≤ clamp tRaw 0 (computeEvolutionTimeline p).totalLifetimeMyr ∧
      clamp tRaw 0 (computeEvolutionTimeline p).totalLifetimeMyr ≤ ph.tEndMyr ∧
      (computeEvolutionTimeline p).phases ≠ [] := by
  have htotpos : (0 : ℝ) ≤ totalLifetimeMyrOf p := le_of_lt (totalLifetime_pos p)
  set t := clamp tRaw 0 (computeEvolutionTimeline p).totalLifetimeMyr with hdef
  have h0 : 0 ≤ t := lo_le_clamp htotpos
  have hT : t ≤ totalLifetimeMyrOf p := clamp_le_hi
  have hsome : (findActivePhase (computeEvolutionTimeline p).phases t).isSome := by
    rw [findActivePhase, List.find?_isSome, phases_explicit]
    rcases le_total t (0 + tMsMyr p) with hc1 | hc1
    · exact ⟨_, List.mem_cons_self _ _,
        by simp only [phaseContains, decide_eq_true_eq]; exact ⟨h0, hc1⟩⟩
    rcases le_total t (0 + tMsMyr p + tSub p) with hc2 | hc2
    · exact ⟨_, List.mem_cons_of_mem _ (List.mem_cons_self _ _),
        by simp only [phaseContains, decide_eq_true_eq]; exact ⟨hc1, hc2⟩⟩
    rcases le_total t (0 + tMsMyr p + tSub p + tRGB p) with hc3 | hc3
    · exact ⟨_, List.mem_cons_of_mem _ (List.mem_cons_of_mem _ (List.mem_cons_self _ _)),
        by simp only [phaseContains, decide_eq_true_eq]; exact ⟨hc2, hc3⟩⟩
    rcases le_total t (0 + tMsMyr p + tSub p + tRGB p + tHB p) with hc4 | hc4
    · exact ⟨_, List.mem_cons_of_mem _ (List.mem_cons_of_mem _ (List.mem_cons_of_mem _
          (List.mem_cons_self _ _))),
        by simp only [phaseContains, decide_eq_true_eq]; exact ⟨hc3, hc4⟩⟩
    rcases le_total t (0 + tMsMyr p + tSub p + tRGB p + tHB p + tAGB p) with hc5 | hc5
    · exact ⟨_, List.mem_cons_of_mem _ (List.mem_cons_of_mem _ (List.mem_cons_of_mem _
          (List.mem_cons_of_mem _ (List.mem_cons_self _ _)))),
        by simp only [phaseContains, decide_eq_true_eq]; exact ⟨hc4, hc5⟩⟩
    · have hlast : t ≤ 0 + tMsMyr p + tSub p + tRGB p + tHB p + tAGB p + tWD p := hT
      exact ⟨_, List.mem_cons_of_mem _ (List.mem_cons_of_mem _ (List.mem_cons_of_mem _
          (List.mem_cons_of_mem _ (List.mem_cons_of_mem _ (List.mem_cons_self _ _))))),
        by simp only [phaseContains, decide_eq_true_eq]; exact ⟨hc5, hlast⟩⟩
  obtain ⟨ph, hph⟩ := Option.isSome_iff_exists.mp hsome
  have hpred : (ph.tStartMyr ≤ t ∧ t ≤ ph.tEndMyr) := by
    have := List.find?_some (by rw [findActivePhase] at hph; exact hph)
    simpa only [phaseContains, decide_eq_true_eq] using this
  exact ⟨ph, hph, hpred.1, hpred.2, by rw [phases_explicit]; simp⟩

-- ---------- C10 ----------

theorem lerp_one (a b : ℝ) : lerp a b 1 = b := by rw [lerp]; ring

theorem safePhaseFraction_at_end {ph : EvolutionPhase} (h : ph.tStartMyr < ph.tEndMyr) :
    safePhaseFraction ph ph.tEndMyr = 1 := by
  rw [safePhaseFraction, if_neg (not_le.mpr (sub_pos.mpr h)),
    div_self (ne_of_gt (sub_pos.mpr h))]
  exact clamp_eq_self (by norm_num) (by norm_num)

theorem phaseContains_false {t : ℝ} {ph : EvolutionPhase} (h : ¬ t ≤ ph.tEndMyr) :
    ¬ (phaseContains t ph = true) := by
  simp only [phaseContains, decide_eq_true_eq]
  intro hx
  exact h hx.2

theorem phaseContains_true {t : ℝ} {ph : EvolutionPhase} (h1 : ph.tStartMyr ≤ t)
    (h2 : t ≤ ph.tEndMyr) : phaseContains t ph = true := by
  simp only [phaseContains, decide_eq_true_eq]
  exact ⟨h1, h2⟩

theorem find?_cons_skip {t : ℝ} {ph : EvolutionPhase} {l : List EvolutionPhase}
    (h : ¬ t ≤ ph.tEndMyr) :
    List.find? (phaseContains t) (ph :: l) = List.find? (phaseContains t) l :=
  List.find?_cons_of_neg _ (phaseContains_false h)

theorem find?_cons_hit {t : ℝ} {ph : EvolutionPhase} {l : List EvolutionPhase}
    (h1 : ph.tStartMyr ≤ t) (h2 : t ≤ ph.tEndMyr) :
    List.find? (phaseContains t) (ph :: l) = some ph :=
  List.find?_cons_of_pos _ (phaseContains_true h1 h2)

theorem interp_at_phase_end (p : StarParams) (tl : EvolutionTimeline) (ph : EvolutionPhase)
    (hfind : findActivePhase tl.phases ph.tEndMyr = some ph)
    (hpos : ph.tStartMyr < ph.tEndMyr) :
    (stateAtClampedTime p tl ph.tEndMyr).phaseId = ph.id ∧
    (stateAtClampedTime p tl ph.tEndMyr).phaseFrac = 1 ∧
    (stateAtClampedTime p tl ph.tEndMyr).L =
      (buildPhaseShapes p (computeInitialStar p) tl.remnant (shapeKeyForPhase ph.id)).stop.L ∧
    (stateAtClampedTime p tl ph.tEndMyr).R =
      (buildPhaseShapes p (computeInitialStar p) tl.remnant (shapeKeyForPhase ph.id)).stop.R ∧
    (stateAtClampedTime p tl ph.tEndMyr).T_eff =
      (buildPhaseShapes p (computeInitialStar p) tl.remnant
        (shapeKeyForPhase ph.id)).stop.T_eff := by
  have hstate : stateAtClampedTime p tl ph.tEndMyr = interpState p tl ph.tEndMyr ph := by
    rw [stateAtClampedTime, hfind]
  have hfrac := safePhaseFraction_at_end hpos
  rw [hstate]
  refine ⟨rfl, hfrac, ?_, ?_, ?_⟩
  · show lerp (buildPhaseShapes p (computeInitialStar p) tl.remnant
        (shapeKeyForPhase ph.id)).start.L
      (buildPhaseShapes p (computeInitialStar p) tl.remnant (shapeKeyForPhase ph.id)).stop.L
      (safePhaseFraction ph ph.tEndMyr) = _
    rw [hfrac, lerp_one]
  · show lerp (buildPhaseShapes p (computeInitialStar p) tl.remnant
        (shapeKeyForPhase ph.id)).start.R
      (buildPhaseShapes p (computeInitialStar p) tl.remnant (shapeKeyForPhase ph.id)).stop.R
      (safePhaseFraction ph ph.tEndMyr) = _
    rw [hfrac, lerp_one]
  · show lerp (buildPhaseShapes p (computeInitialStar p) tl.remnant
        (shapeKeyForPhase ph.id)).start.T_eff
      (buildPhaseShapes p (computeInitialStar p) tl.remnant (shapeKeyForPhase ph.id)).stop.T_eff
      (safePhaseFraction ph ph.tEndMyr) = _
    rw [hfrac, lerp_one]

theorem boundary_case (p : StarParams) (k : ℕ)
    (hfind : findActivePhase (computeEvolutionTimeline p).phases
        ((computeEvolutionTimeline p).phases.getD k default).tEndMyr =
        some ((computeEvolutionTimeline p).phases.getD k default))
    (hpos : ((computeEvolutionTimeline p).phases.getD k default).tStartMyr <
        ((computeEvolutionTimeline p).phases.getD k default).tEndMyr)
    (h0 : (0 : ℝ) ≤ ((computeEvolutionTimeline p).phases.getD k default).tEndMyr)
    (hT : ((computeEvolutionTimeline p).phases.getD k default).tEndMyr ≤
        (computeEvolutionTimeline p).totalLifetimeMyr) :
    (getStarStateAtTime p (computeEvolutionTimeline p)
        ((computeEvolutionTimeline p).phases.getD k default).tEndMyr).phaseId =
      ((computeEvolutionTimeline p).phases.getD k default).id ∧
    (getStarStateAtTime p (computeEvolutionTimeline p)
        ((computeEvolutionTimeline p).phases.getD k default).tEndMyr).phaseFrac = 1 ∧
    (getStarStateAtTime p (computeEvolutionTimeline p)
        ((computeEvolutionTimeline p).phases.getD k default).tEndMyr).L =
      (buildPhaseShapes p (computeInitialStar p) (computeEvolutionTimeline p).remnant
        (shapeKeyForPhase ((computeEvolutionTimeline p).phases.getD k default).id)).stop.L ∧
    (getStarStateAtTime p (computeEvolutionTimeline p)
        ((computeEvolutionTimeline p).phases.getD k default).tEndMyr).R =
      (buildPhaseShapes p (computeInitialStar p) (computeEvolutionTimeline p).remnant
        (shapeKeyForPhase ((computeEvolutionTimeline p).phases.getD k default).id)).stop.R ∧
    (getStarStateAtTime p (computeEvolutionTimeline p)
        ((computeEvolutionTimeline p).phases.getD k default).tEndMyr).T_eff =
      (buildPhaseShapes p (computeInitialStar p) (computeEvolutionTimeline p).remnant
        (shapeKeyForPhase ((computeEvolutionTimeline p).phases.getD k default).id)).stop.T_eff
    := by
  have hclamp := clamp_eq_self h0 hT
  rw [getStarStateAtTime, hclamp]
  exact interp_at_phase_end p (computeEvolutionTimeline p) _ hfind hpos

/-- Claim C10: querying `getStarStateAtTime` exactly at an internal boundary time
`t = phases[i].tEndMyr = phases[i+1].tStartMyr` returns the earlier phase:
`phaseId = phases[i].id`, `phaseFrac = 1`, and the returned `L, R, T_eff` equal
the end keypoint of the shape of the earlier phase. -/
theorem boundary_returns_earlier_phase (p : StarParams) (i : ℕ) (hi : i < 5) :
    ((computeEvolutionTimeline p).phases.getD i default).tEndMyr =
      ((computeEvolutionTimeline p).phases.getD (i + 1) default).tStartMyr ∧
    (getStarStateAtTime p (computeEvolutionTimeline p)
        ((computeEvolutionTimeline p).phases.getD i default).tEndMyr).phaseId =
      ((computeEvolutionTimeline p).phases.getD i default).id ∧
    (getStarStateAtTime p (computeEvolutionTimeline p)
        ((computeEvolutionTimeline p).phases.getD i default).tEndMyr).phaseFrac = 1 ∧
    (getStarStateAtTime p (computeEvolutionTimeline p)
        ((computeEvolutionTimeline p).phases.getD i default).tEndMyr).L =
      (buildPhaseShapes p (computeInitialStar p) (computeEvolutionTimeline p).remnant
        (shapeKeyForPhase ((computeEvolutionTimeline p).phases.getD i default).id)).stop.L ∧
    (getStarStateAtTime p (computeEvolutionTimeline p)
        ((computeEvolutionTimeline p).phases.getD i default).tEndMyr).R =
      (buildPhaseShapes p (computeInitialStar p) (computeEvolutionTimeline p).remnant
        (shapeKeyForPhase ((computeEvolutionTimeline p).phases.getD i default).id)).stop.R ∧
    (getStarStateAtTime p (computeEvolutionTimeline p)
        ((computeEvolutionTimeline p).phases.getD i default).tEndMyr).T_eff =
      (buildPhaseShapes p (computeInitialStar p) (computeEvolutionTimeline p).remnant
        (shapeKeyForPhase ((computeEvolutionTimeline p).phases.getD i default).id)).stop.T_eff
    := by
  have hms := tMsMyr_pos p
  have hsub := tSub_pos p
  have hrgb := tRGB_pos p
  have hhb := tHB_pos p
  have hagb := tAGB_pos p
  have hwd := tWD_pos p
  have h4 : i ≤ 4 := by omega
  interval_cases i
  · refine ⟨rfl, boundary_case p 0 ?_ ?_ ?_ ?_⟩
    · show findActivePhase (computeEvolutionTimeline p).phases (0 + tMsMyr p) =
        some ((computeEvolutionTimeline p).phases.getD 0 default)
      rw [findActivePhase, phases_explicit]
      exact find?_cons_hit (by dsimp only; linarith) (le_refl _)
    · show (0 : ℝ) < 0 + tMsMyr p
      linarith
    · show (0 : ℝ) ≤ 0 + tMsMyr p
      linarith
    · show 0 + tMsMyr p ≤ totalLifetimeMyrOf p
      rw [totalLifetimeMyrOf]
      linarith
  · refine ⟨rfl, boundary_case p 1 ?_ ?_ ?_ ?_⟩
    · show findActivePhase (computeEvolutionTimeline p).phases (0 + tMsMyr p + tSub p) =
        some ((computeEvolutionTimeline p).phases.getD 1 default)
      rw [findActivePhase, phases_explicit]
      rw [find?_cons_skip
        (show ¬ (0 + tMsMyr p + tSub p) ≤ 0 + tMsMyr p by intro hx; linarith)]
      exact find?_cons_hit (by dsimp only; linarith) (le_refl _)
    · show 0 + tMsMyr p < 0 + tMsMyr p + tSub p
      linarith
    · show (0 : ℝ) ≤ 0 + tMsMyr p + tSub p
      linarith
    · show 0 + tMsMyr p + tSub p ≤ totalLifetimeMyrOf p
      rw [totalLifetimeMyrOf]
      linarith
  · refine ⟨rfl, boundary_case p 2 ?_ ?_ ?_ ?_⟩
    · show findActivePhase (computeEvolutionTimeline p).phases
        (0 + tMsMyr p + tSub p + tRGB p) =
        some ((computeEvolutionTimeline p).phases.getD 2 default)
      rw [findActivePhase, phases_explicit]
      rw [find?_cons_skip
        (show ¬ (0 + tMsMyr p + tSub p + tRGB p) ≤ 0 + tMsMyr p by intro hx; linarith)]
      rw [find?_cons_skip
        (show ¬ (0 + tMsMyr p + tSub p + tRGB p) ≤ 0 + tMsMyr p + tSub p by
          intro hx; linarith)]
      exact find?_cons_hit (by dsimp only; linarith) (le_refl _)
    · show 0 + tMsMyr p + tSub p < 0 + tMsMyr p + tSub p + tRGB p
      linarith
    · show (0 : ℝ) ≤ 0 + tMsMyr p + tSub p + tRGB p
      linarith
    · show 0 + tMsMyr p + tSub p + tRGB p ≤ totalLifetimeMyrOf p
      rw [totalLifetimeMyrOf]
      linarith
  · refine ⟨rfl, boundary_case p 3 ?_ ?_ ?_ ?_⟩
    · show findActivePhase (computeEvolutionTimeline p).phases
        (0 + tMsMyr p + tSub p + tRGB p + tHB p) =
        some ((computeEvolutionTimeline p).phases.getD 3 default)
      rw [findActivePhase, phases_explicit]
      rw [find?_cons_skip
        (show ¬ (0 + tMsMyr p + tSub p + tRGB p + tHB p) ≤ 0 + tMsMyr p by
          intro hx; linarith)]
      rw [find?_cons_skip
        (show ¬ (0 + tMsMyr p + tSub p + tRGB p + tHB p) ≤ 0 + tMsMyr p + tSub p by
          intro hx; linarith)]
      rw [find?_cons_skip
        (show ¬ (0 + tMsMyr p + tSub p + tRGB p + tHB p) ≤
            0 + tMsMyr p + tSub p + tRGB p by intro hx; linarith)]
      exact find?_cons_hit (by dsimp only; linarith) (le_refl _)
    · show 0 + tMsMyr p + tSub p + tRGB p < 0 + tMsMyr p + tSub p + tRGB p + tHB p
      linarith
    · show (0 : ℝ) ≤ 0 + tMsMyr p + tSub p + tRGB p + tHB p
      linarith
    · show 0 + tMsMyr p + tSub p + tRGB p + tHB p ≤ totalLifetimeMyrOf p
      rw [totalLifetimeMyrOf]
      linarith
  · refine ⟨rfl, boundary_case p 4 ?_ ?_ ?_ ?_⟩
    · show findActivePhase (computeEvolutionTimeline p).phases
        (0 + tMsMyr p + tSub p + tRGB p + tHB p + tAGB p) =
        some ((computeEvolutionTimeline p).phases.getD 4 default)
      rw [findActivePhase, phases_explicit]
      rw [find?_cons_skip
        (show ¬ (0 + tMsMyr p + tSub p + tRGB p + tHB p + tAGB p) ≤ 0 + tMsMyr p by
          intro hx; linarith)]
      rw [find?_cons_skip
        (show ¬ (0 + tMsMyr p + tSub p + tRGB p + tHB p + tAGB p) ≤
            0 + tMsMyr p + tSub p by intro hx; linarith)]
      rw [find?_cons_skip
        (show ¬ (0 + tMsMyr p + tSub p + tRGB p + tHB p + tAGB p) ≤
            0 + tMsMyr p + tSub p + tRGB p by intro hx; linarith)]
      rw [find?_cons_skip
        (show ¬ (0 + tMsMyr p + tSub p + tRGB p + tHB p + tAGB p) ≤
            0 + tMsMyr p + tSub p + tRGB p + tHB p by intro hx; linarith)]
      exact find?_cons_hit (by dsimp only; linarith) (le_refl _)
    · show 0 + tMsMyr p + tSub p + tRGB p + tHB p <
        0 + tMsMyr p + tSub p + tRGB p + tHB p + tAGB p
      linarith
    · show (0 : ℝ) ≤ 0 + tMsMyr p + tSub p + tRGB p + tHB p + tAGB p
      linarith
    · show 0 + tMsMyr p + tSub p + tRGB p + tHB p + tAGB p ≤ totalLifetimeMyrOf p
      rw [totalLifetimeMyrOf]
      linarith

/-- Witness for C10 at a concrete input. -/
theorem boundary_returns_earlier_phase_witness :
    (0 : ℕ) < 5 ∧
      (getStarStateAtTime pSun (computeEvolutionTimeline pSun)
          ((computeEvolutionTimeline pSun).phases.getD 0 default).tEndMyr).phaseFrac = 1 :=
  ⟨by norm_num, (boundary_returns_earlier_phase pSun 0 (by norm_num)).2.2.1⟩

-- ---------- C5 ----------

theorem rpow_pow (b q : ℝ) (hb : 0 ≤ b) (n : ℕ) : (b ^ q) ^ (n : ℕ) = b ^ (q * n) := by
  rw [← Real.rpow_natCast (b ^ q) n, ← Real.rpow_mul hb]

/-- Bound `0.1 ^ 2.3 > 349/70000`: the exact threshold below which the raw lifetime
formula at `mass 0.1, Z 0.02` would reach 200 Gyr. -/
theorem rpow_dwarf_gt : (349 / 70000 : ℝ) < (0.1 : ℝ) ^ (2.3 : ℝ) := by
  apply lt_of_pow_lt_pow_left₀ 10 (Real.rpow_nonneg (by norm_num) _)
  have h10 : ((0.1 : ℝ) ^ (2.3 : ℝ)) ^ (10 : ℕ) = (0.1 : ℝ) ^ (23 : ℕ) := by
    rw [rpow_pow 0.1 2.3 (by norm_num) 10,
      show (2.3 : ℝ) * (10 : ℕ) = ((23 : ℕ) : ℝ) by norm_num, Real.rpow_natCast]
  rw [h10]
  norm_num

theorem rpow_dwarf_pos : (0 : ℝ) < (0.1 : ℝ) ^ (2.3 : ℝ) :=
  Real.rpow_pos_of_pos (by norm_num) _

/-- Bound `0.1 ^ 2.3 < 1/199`. -/
theorem rpow_dwarf_lt : (0.1 : ℝ) ^ (2.3 : ℝ) < 1 / 199 := by
  apply lt_of_pow_lt_pow_left₀ 10 (by norm_num)
  have h10 : ((0.1 : ℝ) ^ (2.3 : ℝ)) ^ (10 : ℕ) = (0.1 : ℝ) ^ (23 : ℕ) := by
    rw [rpow_pow 0.1 2.3 (by norm_num) 10,
      show (2.3 : ℝ) * (10 : ℕ) = ((23 : ℕ) : ℝ) by norm_num, Real.rpow_natCast]
  rw [h10]
  norm_num

/-- Bound `0.1 ^ 2.3 ≥ 1e-4` (so the `max(L_ms, 1e-4)` guard is inactive at mass 0.1). -/
theorem rpow_dwarf_ge_guard : (1e-4 : ℝ) ≤ (0.1 : ℝ) ^ (2.3 : ℝ) := by
  have h4 : (1e-4 : ℝ) = (0.1 : ℝ) ^ ((4 : ℕ) : ℝ) := by
    rw [Real.rpow_natCast]
    norm_num
  rw [h4]
  exact Real.rpow_le_rpow_of_exponent_ge (by norm_num) (by norm_num) (by norm_num)

/-- Bound `2 ^ 0.45 > 1.36`. -/
theorem rpow_two_gt : (1.36 : ℝ) < (2 : ℝ) ^ (0.45 : ℝ) := by
  apply lt_of_pow_lt_pow_left₀ 20 (Real.rpow_nonneg (by norm_num) _)
  have h20 : ((2 : ℝ) ^ (0.45 : ℝ)) ^ (20 : ℕ) = (2 : ℝ) ^ (9 : ℕ) := by
    rw [rpow_pow 2 0.45 (by norm_num) 20,
      show (0.45 : ℝ) * (20 : ℕ) = ((9 : ℕ) : ℝ) by norm_num, Real.rpow_natCast]
  rw [h20]
  norm_num

/-- Bound `2 ^ 0.25 ≤ 2`. -/
theorem rpow_quarter_le : (2 : ℝ) ^ (0.25 : ℝ) ≤ 2 := by
  calc (2 : ℝ) ^ (0.25 : ℝ) ≤ (2 : ℝ) ^ (1 : ℝ) :=
        Real.rpow_le_rpow_of_exponent_le (by norm_num) (by norm_num)
    _ = 2 := Real.rpow_one 2

/-- The very-low-mass parameter set at solar metallicity. -/
def pDwarf : StarParams := ⟨0.1, 0.02, 0.3⟩

theorem clampedMass_pDwarf : clampedMass pDwarf = 0.1 := by
  rw [clampedMass]
  show clamp 0.1 0.1 50 = 0.1
  exact clamp_eq_self (by norm_num) (by norm_num)

theorem clampedZ_pDwarf : clampedZ pDwarf = 0.02 := by
  rw [clampedZ]
  show clamp 0.02 0.0 0.04 = 0.02
  exact clamp_eq_self (by norm_num) (by norm_num)

theorem heliumY_pDwarf : heliumY pDwarf = 0.282 := by
  rw [heliumY, clampedZ_pDwarf, show (0.248 : ℝ) + 1.7 * 0.02 = 0.282 by norm_num]
  exact clamp_eq_self (by norm_num) (by norm_num)

theorem hydrogenX_pDwarf : hydrogenX pDwarf = 0.698 := by
  rw [hydrogenX, heliumY_pDwarf, clampedZ_pDwarf,
    show (1 : ℝ) - 0.282 - 0.02 = 0.698 by norm_num]
  exact max_eq_right (by norm_num)

theorem Z_relInit_pDwarf : Z_relInit pDwarf = 1 := by
  rw [Z_relInit, if_pos (by norm_num : (0.02 : ℝ) > 0), clampedZ_pDwarf,
    show (0.02 : ℝ) / 0.02 = 1 by norm_num]
  exact clamp_eq_self (by norm_num) (by norm_num)

theorem L_msFinal_pDwarf : L_msFinal pDwarf = (0.1 : ℝ) ^ (2.3 : ℝ) := by
  have hbase : L_ms_base pDwarf = (0.1 : ℝ) ^ (2.3 : ℝ) := by
    rw [L_ms_base, clampedMass_pDwarf, if_pos (by norm_num : (0.1 : ℝ) < 0.5)]
  have hpre : L_beforeCNO pDwarf = (0.1 : ℝ) ^ (2.3 : ℝ) := by
    rw [L_beforeCNO, hbase, Z_relInit_pDwarf, Real.one_rpow, mul_one]
  rw [L_msFinal, clampedMass_pDwarf, if_neg (by norm_num : ¬ (1.3 : ℝ) < 0.1), hpre]

/-- At `mass 0.1, metallicity 0.02` the raw lifetime formula stays strictly
below the 200 Gyr ceiling. -/
theorem msLifetime_pDwarf_lt :
    mainSequenceLifetimeGyrFromInitial (computeInitialStar pDwarf) pDwarf < 200 := by
  have hX : (computeInitialStar pDwarf).X = 0.698 := hydrogenX_pDwarf
  have hL : (computeInitialStar pDwarf).L_ms = (0.1 : ℝ) ^ (2.3 : ℝ) := L_msFinal_pDwarf
  have hM : clampMass pDwarf.mass = 0.1 := clampedMass_pDwarf
  have hZfix : min (max pDwarf.metallicity 0.0001) 0.04 = 0.02 := by
    show min (max (0.02 : ℝ) 0.0001) 0.04 = 0.02
    rw [max_eq_left (by norm_num), min_eq_left (by norm_num)]
  have hApos := rpow_dwarf_pos
  have hA := rpow_dwarf_gt
  simp only [mainSequenceLifetimeGyrFromInitial]
  rw [hX, hL, hM, hZfix, if_pos (by norm_num : (0.02 : ℝ) > 0),
    show (0.02 : ℝ) / 0.02 = 1 by norm_num, Real.one_rpow, mul_one,
    max_eq_left rpow_dwarf_ge_guard, show (1.0 : ℝ) = 1 by norm_num, div_one]
  apply min_lt_of_left_lt
  apply max_lt ?_ (by norm_num)
  have key : (0.1 : ℝ) / (0.1 : ℝ) ^ (2.3 : ℝ) < 7000 / 349 := by
    rw [div_lt_div_iff₀ hApos (by norm_num)]
    nlinarith [hA]
  calc 10 * ((0.698 : ℝ) / 0.70) * (0.1 / (0.1 : ℝ) ^ (2.3 : ℝ))
      < 10 * ((0.698 : ℝ) / 0.70) * (7000 / 349) := by
        apply mul_lt_mul_of_pos_left key (by norm_num)
    _ = 200 := by norm_num

/-- Counterexample for C5 as stated: at `mass 0.1, metallicity 0.02` (the solar
default) the main-sequence phase duration is strictly below 200000 Myr, so it
neither equals the 200 Gyr ceiling (2.0e5 Myr) nor the 2.0e8 Myr of the claim. -/
theorem ms_lifetime_no_clamp_at_solar_Z :
    ((computeEvolutionTimeline pDwarf).phases.getD 0 default).id = EvolutionPhaseId.ms ∧
    ((computeEvolutionTimeline pDwarf).phases.getD 0 default).durationMyr < 200000 ∧
    ((computeEvolutionTimeline pDwarf).phases.getD 0 default).durationMyr ≠ 2.0e8 := by
  have hdur : ((computeEvolutionTimeline pDwarf).phases.getD 0 default).durationMyr =
      tMsMyr pDwarf := rfl
  have hlt := msLifetime_pDwarf_lt
  have h1 : tMsMyr pDwarf < 200000 := by
    rw [tMsMyr]
    linarith
  refine ⟨rfl, ?_, ?_⟩
  · rw [hdur]
    exact h1
  · rw [hdur]
    exact ne_of_lt (by linarith)

-- evaluation at mass 0.1, metallicity 0.04, arbitrary cnoFraction

theorem clampedMass_pDwarfZ (c : ℝ) : clampedMass ⟨0.1, 0.04, c⟩ = 0.1 := by
  rw [clampedMass]
  show clamp 0.1 0.1 50 = 0.1
  exact clamp_eq_self (by norm_num) (by norm_num)

theorem clampedZ_pDwarfZ (c : ℝ) : clampedZ ⟨0.1, 0.04, c⟩ = 0.04 := by
  rw [clampedZ]
  show clamp 0.04 0.0 0.04 = 0.04
  exact clamp_eq_self (by norm_num) (by norm_num)

theorem heliumY_pDwarfZ (c : ℝ) : heliumY ⟨0.1, 0.04, c⟩ = 0.316 := by
  rw [heliumY, clampedZ_pDwarfZ, show (0.248 : ℝ) + 1.7 * 0.04 = 0.316 by norm_num]
  exact clamp_eq_self (by norm_num) (by norm_num)

theorem hydrogenX_pDwarfZ (c : ℝ) : hydrogenX ⟨0.1, 0.04, c⟩ = 0.644 := by
  rw [hydrogenX, heliumY_pDwarfZ, clampedZ_pDwarfZ,
    show (1 : ℝ) - 0.316 - 0.04 = 0.644 by norm_num]
  exact max_eq_right (by norm_num)

theorem Z_relInit_pDwarfZ (c : ℝ) : Z_relInit ⟨0.1, 0.04, c⟩ = 2 := by
  rw [Z_relInit, if_pos (by norm_num : (0.02 : ℝ) > 0), clampedZ_pDwarfZ,
    show (0.04 : ℝ) / 0.02 = 2 by norm_num]
  exact clamp_eq_self (by norm_num) (by norm_num)

theorem L_msFinal_pDwarfZ (c : ℝ) :
    L_msFinal ⟨0.1, 0.04, c⟩ = (0.1 : ℝ) ^ (2.3 : ℝ) * ((2 : ℝ) ^ (0.25 : ℝ))⁻¹ := by
  have hbase : L_ms_base ⟨0.1, 0.04, c⟩ = (0.1 : ℝ) ^ (2.3 : ℝ) := by
    rw [L_ms_base, clampedMass_pDwarfZ, if_pos (by norm_num : (0.1 : ℝ) < 0.5)]
  have hpre : L_beforeCNO ⟨0.1, 0.04, c⟩ =
      (0.1 : ℝ) ^ (2.3 : ℝ) * ((2 : ℝ) ^ (0.25 : ℝ))⁻¹ := by
    rw [L_beforeCNO, hbase, Z_relInit_pDwarfZ, Real.rpow_neg (by norm_num : (0 : ℝ) ≤ 2)]
  rw [L_msFinal, clampedMass_pDwarfZ, if_neg (by norm_num : ¬ (1.3 : ℝ) < 0.1), hpre]

/-- At `mass 0.1, metallicity 0.04` the raw lifetime formula exceeds the
200 Gyr ceiling, for every cnoFraction. -/
theorem msLifetime_pDwarfZ_ge (c : ℝ) :
    200 ≤ mainSequenceLifetimeGyrFromInitial (computeInitialStar ⟨0.1, 0.04, c⟩)
      ⟨0.1, 0.04, c⟩ := by
  have hX : (computeInitialStar ⟨0.1, 0.04, c⟩).X = 0.644 := hydrogenX_pDwarfZ c
  have hL : (computeInitialStar ⟨0.1, 0.04, c⟩).L_ms =
      (0.1 : ℝ) ^ (2.3 : ℝ) * ((2 : ℝ) ^ (0.25 : ℝ))⁻¹ := L_msFinal_pDwarfZ c
  have hM : clampMass (StarParams.mass ⟨0.1, 0.04, c⟩) = 0.1 := clampedMass_pDwarfZ c
  have hZfix : min (max (StarParams.metallicity ⟨0.1, 0.04, c⟩) 0.0001) 0.04 = 0.04 := by
    show min (max (0.04 : ℝ) 0.0001) 0.04 = 0.04
    rw [max_eq_left (by norm_num), min_eq_left (by norm_num)]
  have hApos := rpow_dwarf_pos
  have hA := rpow_dwarf_lt
  have hBpos : (0 : ℝ) < (2 : ℝ) ^ (0.25 : ℝ) := Real.rpow_pos_of_pos (by norm_num) _
  have hA3 : (1e-3 : ℝ) ≤ (0.1 : ℝ) ^ (2.3 : ℝ) := by
    have h3 : (1e-3 : ℝ) = (0.1 : ℝ) ^ ((3 : ℕ) : ℝ) := by
      rw [Real.rpow_natCast]
      norm_num
    rw [h3]
    exact Real.rpow_le_rpow_of_exponent_ge (by norm_num) (by norm_num) (by norm_num)
  have hBinv : (1 : ℝ) / 2 ≤ ((2 : ℝ) ^ (0.25 : ℝ))⁻¹ := by
    rw [← one_div]
    exact one_div_le_one_div_of_le hBpos rpow_quarter_le
  have hguard : (1e-4 : ℝ) ≤ (0.1 : ℝ) ^ (2.3 : ℝ) * ((2 : ℝ) ^ (0.25 : ℝ))⁻¹ := by
    nlinarith [hA3, hBinv, hApos, hBpos]
  have hBC : (2 : ℝ) ^ (0.25 : ℝ) * (2 : ℝ) ^ (0.2 : ℝ) = (2 : ℝ) ^ (0.45 : ℝ) := by
    rw [← Real.rpow_add (by norm_num : (0 : ℝ) < 2),
      show (0.25 : ℝ) + 0.2 = 0.45 by norm_num]
  simp only [mainSequenceLifetimeGyrFromInitial]
  rw [hX, hL, hM, hZfix, if_pos (by norm_num : (0.02 : ℝ) > 0),
    show (0.04 : ℝ) / 0.02 = 2 by norm_num, max_eq_left hguard,
    show (1.0 : ℝ) = 1 by norm_num, div_one]
  refine le_min (le_trans ?_ (le_max_left _ _)) (le_refl _)
  have hE : 10 * ((0.644 : ℝ) / 0.70) *
        (0.1 / ((0.1 : ℝ) ^ (2.3 : ℝ) * ((2 : ℝ) ^ (0.25 : ℝ))⁻¹)) * (2 : ℝ) ^ (0.2 : ℝ) =
      0.92 * ((2 : ℝ) ^ (0.25 : ℝ) * (2 : ℝ) ^ (0.2 : ℝ)) / (0.1 : ℝ) ^ (2.3 : ℝ) := by
    field_simp
    ring
  rw [hE, hBC, le_div_iff₀ hApos]
  nlinarith [rpow_two_gt, hA]

/-- Claim C5 (amended): at `mass 0.1` the main-sequence lifetime clamps at the
200 Gyr ceiling (so the ms phase lasts 200 Gyr = 2.0e5 Myr) for sufficiently
high metallicity — here metallicity 0.04, for every cnoFraction; at solar
metallicity 0.02 the raw formula stays just below the ceiling (see the
counterexample), so the clamp is not hit for every metallicity. -/
theorem ms_lifetime_clamps_at_high_Z (c : ℝ) :
    ((computeEvolutionTimeline ⟨0.1, 0.04, c⟩).phases.getD 0 default).id =
      EvolutionPhaseId.ms ∧
    ((computeEvolutionTimeline ⟨0.1, 0.04, c⟩).phases.getD 0 default).durationMyr
      = 200000 := by
  have hge := msLifetime_pDwarfZ_ge c
  have hle := (msLifetime_mem (computeInitialStar ⟨0.1, 0.04, c⟩) ⟨0.1, 0.04, c⟩).2
  have heq : mainSequenceLifetimeGyrFromInitial (computeInitialStar ⟨0.1, 0.04, c⟩)
      ⟨0.1, 0.04, c⟩ = 200 := le_antisymm hle hge
  have hdur : ((computeEvolutionTimeline ⟨0.1, 0.04, c⟩).phases.getD 0 default).durationMyr
      = tMsMyr ⟨0.1, 0.04, c⟩ := rfl
  refine ⟨rfl, ?_⟩
  rw [hdur, tMsMyr, heq]
  norm_num

end StarFactory
